import Mathlib

/-!
# Verification of the planet-renderer Vulkan engine

A shallow embedding of the GPU bring-up and per-frame rendering code of
`src/vulkan_engine.cpp` (class `VulkanEngine`), together with theorems
settling the specification claims about it.

Modelling conventions:
* Vulkan enumeration values are embedded as small inductive types or `Nat`
  constants carrying the numeric values of `vulkan_core.h`.
* Driver-supplied data (queue families, surface formats, present modes,
  capabilities, memory types) is a value of an explicit structure; the
  engine's query helpers are functions of that data.
* `uint32_t` quantities are `Nat`, with an explicit `% 2 ^ 32` exactly where
  the C++ unsigned arithmetic can wrap.
* Stateful per-frame code (`DrawFrame`, `Run`, `RecreateSwapChain`) is a
  state-passing function that also emits a trace of the Vulkan calls it
  performs, so ordering claims become statements about traces.
-/

namespace PlanetRenderer

/-! ## Vulkan enumeration values -/

/-- `VkPresentModeKHR`. The numeric values of `vulkan_core.h` are
`IMMEDIATE = 0`, `MAILBOX = 1`, `FIFO = 2`, `FIFO_RELAXED = 3`; `immediate`
is the zero (value-initialized) element. -/
inductive PresentMode
  | immediate
  | mailbox
  | fifo
  | fifoRelaxed
  deriving DecidableEq, Repr

/-- `VK_FORMAT_B8G8R8A8_SRGB` from `vulkan_core.h`. -/
def formatB8G8R8A8Srgb : Nat := 50

/-- `VK_COLOR_SPACE_SRGB_NONLINEAR_KHR` from `vulkan_core.h`. -/
def colorSpaceSrgbNonlinear : Nat := 0

/-- `VkSurfaceFormatKHR`: a pixel format together with a color space. -/
structure SurfaceFormat where
  format : Nat
  colorSpace : Nat
  deriving DecidableEq, Repr

/-- The fields of `VkSurfaceCapabilitiesKHR` the engine reads when sizing
the swapchain. -/
structure SurfaceCapabilities where
  minImageCount : Nat
  maxImageCount : Nat
  deriving DecidableEq, Repr

/-- One entry of `VkQueueFamilyProperties` as the engine consumes it: does
the family have `VK_QUEUE_GRAPHICS_BIT`, and does
`vkGetPhysicalDeviceSurfaceSupportKHR` report presentation support for the
engine's surface. -/
structure QueueFamily where
  supportsGraphics : Bool
  supportsPresentation : Bool
  deriving DecidableEq, Repr

/-- A physical device as the driver reports it to the engine: its queue
families in enumeration order, its device extension names, and the
surface capabilities, surface formats and present modes the driver reports
for the engine's surface. -/
structure PhysicalDevice where
  queueFamilies : List QueueFamily
  extensions : List String
  capabilities : SurfaceCapabilities
  surfaceFormats : List SurfaceFormat
  presentModes : List PresentMode
  deriving DecidableEq, Repr

/-- `kDeviceExtensions` (vulkan_engine.cpp line 74): the single required
device extension `VK_KHR_SWAPCHAIN_EXTENSION_NAME`. -/
def kDeviceExtensions : List String := ["VK_KHR_swapchain"]

/-- `kMaxFramesInFlight` (vulkan_engine.cpp line 77). -/
def kMaxFramesInFlight : Nat := 2

/-! ## Swap-chain support query and selection helpers -/

/-- `VulkanEngine::SwapChainSupportDetails`. -/
structure SwapChainSupportDetails where
  capabilities : SurfaceCapabilities
  formats : List SurfaceFormat
  present_modes : List PresentMode
  deriving DecidableEq, Repr

/-- `VulkanEngine::QuerySwapChainSupport` (lines 661-685). The formats
vector is resized to the driver count and then filled by a second
`vkGetPhysicalDeviceSurfaceFormatsKHR` call that passes
`details.formats.data()`. The present-modes vector is resized to the driver
count, but the second `vkGetPhysicalDeviceSurfacePresentModesKHR` call
(line 680) passes `nullptr` as the output array, so it only re-reads the
count and the vector keeps the value-initialized contents `resize` gave it:
every element is `(VkPresentModeKHR)0`, i.e. `VK_PRESENT_MODE_IMMEDIATE_KHR`. -/
def querySwapChainSupport (d : PhysicalDevice) : SwapChainSupportDetails :=
  { capabilities := d.capabilities
    formats := d.surfaceFormats
    present_modes := List.replicate d.presentModes.length PresentMode.immediate }

/-- The predicate of the loop in `VulkanEngine::ChooseSwapSurfaceFormat`
(lines 621-626): `format == VK_FORMAT_B8G8R8A8_SRGB` and
`colorSpace == VK_COLOR_SPACE_SRGB_NONLINEAR_KHR`. -/
def isPreferredSurfaceFormat (f : SurfaceFormat) : Bool :=
  f.format == formatB8G8R8A8Srgb && f.colorSpace == colorSpaceSrgbNonlinear

/-- `VulkanEngine::ChooseSwapSurfaceFormat` (lines 619-628): return the
first available format satisfying the preference test, otherwise
`available_formats[0]`. The fallback subscript is an unchecked access; it
is embedded as `head?`, which is `none` exactly when the C++ access would
be out of bounds. -/
def chooseSwapSurfaceFormat (availableFormats : List SurfaceFormat) :
    Option SurfaceFormat :=
  match availableFormats.find? isPreferredSurfaceFormat with
  | some f => some f
  | none => availableFormats.head?

/-- `VulkanEngine::ChooseSwapPresentMode` (lines 630-638): return
`VK_PRESENT_MODE_MAILBOX_KHR` if it occurs in the list, otherwise
`VK_PRESENT_MODE_FIFO_KHR`. -/
def chooseSwapPresentMode (availablePresentModes : List PresentMode) :
    PresentMode :=
  match availablePresentModes.find? (· == PresentMode.mailbox) with
  | some m => m
  | none => PresentMode.fifo

/-- The image-count computation of `VulkanEngine::CreateSwapChain`
(lines 570-574): `uint32_t image_count = capabilities.minImageCount + 1`
(wrapping 32-bit addition), lowered to `capabilities.maxImageCount` when
that is nonzero and exceeded. -/
def requestedImageCount (caps : SurfaceCapabilities) : Nat :=
  let imageCount := (caps.minImageCount + 1) % 2 ^ 32
  if caps.maxImageCount > 0 && decide (imageCount > caps.maxImageCount) then
    caps.maxImageCount
  else
    imageCount

/-! ## Queue families and device suitability -/

/-- `VulkanEngine::QueueFamilyIndices`. -/
structure QueueFamilyIndices where
  graphics_family : Option Nat
  presentation_family : Option Nat
  deriving DecidableEq, Repr

/-- `QueueFamilyIndices::IsComplete`. -/
def QueueFamilyIndices.IsComplete (q : QueueFamilyIndices) : Bool :=
  q.graphics_family.isSome && q.presentation_family.isSome

/-- One iteration body of the loop in `VulkanEngine::FindQueueFamilies`
(lines 542-551): if queue family `i` has `VK_QUEUE_GRAPHICS_BIT`, record it
as the graphics family; if it has presentation support, record it as the
presentation family. -/
def updateQueueFamilyIndices (qf : QueueFamily) (i : Nat)
    (acc : QueueFamilyIndices) : QueueFamilyIndices :=
  let acc1 := if qf.supportsGraphics then
      { acc with graphics_family := some i } else acc
  if qf.supportsPresentation then
    { acc1 with presentation_family := some i } else acc1

/-- The loop of `VulkanEngine::FindQueueFamilies` (lines 541-556): walk the
queue families with index `i`, updating the recorded indices, and break as
soon as both are recorded. -/
def findQueueFamiliesLoop :
    List QueueFamily → Nat → QueueFamilyIndices → QueueFamilyIndices
  | [], _, acc => acc
  | qf :: rest, i, acc =>
    let acc2 := updateQueueFamilyIndices qf i acc
    if acc2.IsComplete then acc2 else findQueueFamiliesLoop rest (i + 1) acc2

/-- `VulkanEngine::FindQueueFamilies` (lines 532-558). -/
def findQueueFamilies (d : PhysicalDevice) : QueueFamilyIndices :=
  findQueueFamiliesLoop d.queueFamilies 0 ⟨none, none⟩

/-- `VulkanEngine::CheckDeviceExtensionSupport` (lines 466-481): the set of
required extensions minus the available ones is empty, i.e. every required
extension name occurs among the device's extensions. -/
def checkDeviceExtensionSupport (d : PhysicalDevice) : Bool :=
  kDeviceExtensions.all (fun e => d.extensions.contains e)

/-- `VulkanEngine::IsDeviceSuitable` (lines 454-464). -/
def isDeviceSuitable (d : PhysicalDevice) : Bool :=
  let indices := findQueueFamilies d
  let extensionsSupported := checkDeviceExtensionSupport d
  let swapChainAdequate :=
    if extensionsSupported then
      let s := querySwapChainSupport d
      !s.formats.isEmpty && !s.present_modes.isEmpty
    else false
  indices.IsComplete && extensionsSupported && swapChainAdequate

/-- `VulkanEngine::PickPhysicalDevice` (lines 427-452). The result is the
value of `physical_device_` after the call (`none` embeds
`VK_NULL_HANDLE`), paired with whether an error was logged: one error for
an empty enumeration ("Failed to find GPUs with Vulkan support."), one
when no enumerated device is suitable ("Failed to find suitable GPU."). -/
def pickPhysicalDevice (devices : List PhysicalDevice) :
    Option PhysicalDevice × Bool :=
  if devices.isEmpty then (none, true)
  else
    match devices.find? isDeviceSuitable with
    | some d => (some d, false)
    | none => (none, true)

/-! ## Memory-type search -/

/-- One entry of `VkPhysicalDeviceMemoryProperties::memoryTypes` as the
engine reads it. -/
structure MemoryType where
  propertyFlags : Nat
  deriving DecidableEq, Repr

/-- The loop of `VulkanEngine::FindMemoryType` (lines 1076-1082), walking
the memory types with index `i`: accept index `i` when the type filter has
bit `i` set (`type_filter & (1 << i)`) and the type's property flags
contain every requested property
(`(memoryTypes[i].propertyFlags & properties) == properties`). -/
def findMemoryTypeLoop (types : List MemoryType) (typeFilter properties : Nat)
    (i : Nat) : Option Nat :=
  match types with
  | [] => none
  | t :: rest =>
    if (typeFilter &&& (1 <<< i)) != 0 &&
        (t.propertyFlags &&& properties) == properties then
      some i
    else
      findMemoryTypeLoop rest typeFilter properties (i + 1)

/-- `VulkanEngine::FindMemoryType` (lines 1071-1086). The first component
is the returned `uint32_t`; the second records whether the failure path
was taken, which logs "Failed to find suitable memory type." and returns
`0`. The caller only sees the first component. -/
def findMemoryType (memoryTypes : List MemoryType)
    (typeFilter properties : Nat) : Nat × Bool :=
  match findMemoryTypeLoop memoryTypes typeFilter properties 0 with
  | some i => (i, false)
  | none => (0, true)

/-! ## The hard-coded mesh and command recording -/

/-- The `Vertex` record (lines 31-56): a 2D position and an RGB color.
The float coordinates of the hard-coded mesh are exact in binary floating
point, so rationals embed them faithfully. -/
structure Vertex where
  position : ℚ × ℚ
  color : ℚ × ℚ × ℚ
  deriving DecidableEq, Repr

/-- The constant vertex list `vertices` (lines 64-67). -/
def vertices : List Vertex :=
  [⟨(-(1 / 2), -(1 / 2)), (1, 0, 0)⟩,
   ⟨(1 / 2, -(1 / 2)), (0, 1, 0)⟩,
   ⟨(1 / 2, 1 / 2), (0, 0, 1)⟩,
   ⟨(-(1 / 2), 1 / 2), (1, 1, 1)⟩]

/-- The constant index list `indices` (line 69). -/
def indices : List Nat := [0, 1, 2, 2, 3, 0]

/-- The Vulkan commands `VulkanEngine::RecordCommandBuffer` records, in
order. -/
inductive Command
  | beginCommandBuffer
  | beginRenderPass (imageIndex : Nat)
  | bindPipeline
  | bindVertexBuffers
  | bindIndexBuffer
  | setViewport
  | setScissor
  | bindDescriptorSets (slot : Nat)
  | drawIndexed (indexCount instanceCount firstIndex vertexOffset firstInstance : Nat)
  | renderImGuiDrawData
  | endRenderPass
  | endCommandBuffer
  deriving DecidableEq, Repr

/-- `VulkanEngine::RecordCommandBuffer` (lines 1240-1299) as the command
sequence it records into the command buffer for frame slot `currentFrame`
and swapchain image `imageIndex`. The one draw call is
`vkCmdDrawIndexed(cb, indices.size(), 1, 0, 0, 0)` (line 1288); the ImGui
overlay draw data is replayed as one opaque command (line 1291). -/
def recordCommandBuffer (currentFrame imageIndex : Nat) : List Command :=
  [Command.beginCommandBuffer,
   Command.beginRenderPass imageIndex,
   Command.bindPipeline,
   Command.bindVertexBuffers,
   Command.bindIndexBuffer,
   Command.setViewport,
   Command.setScissor,
   Command.bindDescriptorSets currentFrame,
   Command.drawIndexed indices.length 1 0 0 0,
   Command.renderImGuiDrawData,
   Command.endRenderPass,
   Command.endCommandBuffer]

/-- Is a command a `vkCmdDrawIndexed`? -/
def Command.isDrawIndexed : Command → Bool
  | Command.drawIndexed _ _ _ _ _ => true
  | _ => false

/-- Is a command a `vkCmdBindPipeline`? -/
def Command.isBindPipeline : Command → Bool
  | Command.bindPipeline => true
  | _ => false

/-- Is a command a `vkCmdBindVertexBuffers`? -/
def Command.isBindVertexBuffers : Command → Bool
  | Command.bindVertexBuffers => true
  | _ => false

/-- Is a command a `vkCmdBindIndexBuffer`? -/
def Command.isBindIndexBuffer : Command → Bool
  | Command.bindIndexBuffer => true
  | _ => false

/-! ## The per-frame loop: state, traces, DrawFrame -/

/-- Result of `vkAcquireNextImageKHR` as `DrawFrame` discriminates it:
`VK_SUCCESS`, `VK_SUBOPTIMAL_KHR`, `VK_ERROR_OUT_OF_DATE_KHR`, or any
other non-success code. -/
inductive AcquireResult
  | success
  | suboptimal
  | outOfDate
  | failure
  deriving DecidableEq, Repr

/-- Result of `vkQueuePresentKHR` as `DrawFrame` discriminates it. -/
inductive PresentResult
  | success
  | suboptimal
  | outOfDate
  | failure
  deriving DecidableEq, Repr

/-- The environment outcomes one `DrawFrame` call observes from the
driver: the acquire result and acquired image index, whether
`vkQueueSubmit` returned `VK_SUCCESS`, and the present result. -/
structure FrameEnv where
  acquire : AcquireResult
  imageIndex : Nat
  submitOk : Bool
  present : PresentResult
  deriving DecidableEq, Repr

/-- The engine state `DrawFrame` reads and writes: the frame slot index
`current_frame_` and, per slot, whether `in_flight_fences_[slot]` is
signaled or has a pending signal from submitted GPU work (so that a
`vkWaitForFences` on it terminates). -/
structure FrameState where
  currentFrame : Nat
  fences : Nat → Bool

/-- The Vulkan calls the per-frame code performs, for trace-ordering
claims. -/
inductive Action
  | waitFence (slot : Nat)
  | acquireImage (slot : Nat)
  | updateUniform (slot : Nat)
  | resetFence (slot : Nat)
  | resetCommandBuffer (slot : Nat)
  | recordCommands (slot : Nat) (imageIndex : Nat)
  | queueSubmit (slot : Nat)
  | queuePresent
  | deviceWaitIdle
  | destroyFramebuffer (i : Nat)
  | destroyImageView (i : Nat)
  | destroySwapchain
  | createSwapchain
  | createImageViews
  | createFramebuffers
  deriving DecidableEq, Repr

/-- `VulkanEngine::CleanupSwapChain` (lines 687-695) as a trace, for a
swapchain with `nFb` framebuffers and `nIv` image views: destroy every
framebuffer, then every image view, then the swapchain. -/
def cleanupSwapChainTrace (nFb nIv : Nat) : List Action :=
  (List.range nFb).map Action.destroyFramebuffer ++
    (List.range nIv).map Action.destroyImageView ++ [Action.destroySwapchain]

/-- `VulkanEngine::RecreateSwapChain` (lines 697-713) as a trace: after the
minimization pause (which performs no Vulkan call), wait for the device to
be idle, run the cleanup, then create the new swapchain, its image views
and its framebuffers, in that order. -/
def recreateSwapChainTrace (nFb nIv : Nat) : List Action :=
  Action.deviceWaitIdle ::
    (cleanupSwapChainTrace nFb nIv ++
      [Action.createSwapchain, Action.createImageViews, Action.createFramebuffers])

/-- The fence state established by `VulkanEngine::CreateSyncObjects`
(lines 1301-1324): every `in_flight_fences_[i]` is created with
`VK_FENCE_CREATE_SIGNALED_BIT` (line 1311), and `current_frame_` starts
at 0. -/
def initialFrameState : FrameState :=
  { currentFrame := 0, fences := fun _ => true }

/-- `VulkanEngine::DrawFrame` (lines 1326-1394) over a swapchain with
`nFb` framebuffers and `nIv` image views. Returns `none` when the initial
`vkWaitForFences` would block forever because the slot's fence is neither
signaled nor armed by submitted GPU work; otherwise returns the new state
and the trace of calls performed. Mirrors the source control flow:

* wait on `in_flight_fences_[current_frame_]`, acquire an image;
* on `VK_ERROR_OUT_OF_DATE_KHR`: recreate the swapchain and return;
* on any other non-success, non-suboptimal result: log and return;
* otherwise update the uniform buffer, reset the fence, reset and
  re-record the command buffer, and submit with the fence; a failed
  submit logs and returns (the fence stays unsignaled);
* present; on `VK_ERROR_OUT_OF_DATE_KHR` or `VK_SUBOPTIMAL_KHR` recreate
  the swapchain, on any other failure log and return;
* advance `current_frame_ = (current_frame_ + 1) % kMaxFramesInFlight`. -/
def drawFrame (env : FrameEnv) (s : FrameState) (nFb nIv : Nat) :
    Option (FrameState × List Action) :=
  if s.fences s.currentFrame = false then none
  else
    let cf := s.currentFrame
    let t0 := [Action.waitFence cf, Action.acquireImage cf]
    match env.acquire with
    | AcquireResult.outOfDate => some (s, t0 ++ recreateSwapChainTrace nFb nIv)
    | AcquireResult.failure => some (s, t0)
    | _ =>
      let s1 : FrameState := { s with fences := Function.update s.fences cf false }
      let t1 := t0 ++
        [Action.updateUniform cf, Action.resetFence cf,
         Action.resetCommandBuffer cf, Action.recordCommands cf env.imageIndex,
         Action.queueSubmit cf]
      if env.submitOk = false then some (s1, t1)
      else
        let s2 : FrameState := { s1 with fences := Function.update s1.fences cf true }
        let t2 := t1 ++ [Action.queuePresent]
        let advanced : FrameState :=
          { s2 with currentFrame := (cf + 1) % kMaxFramesInFlight }
        match env.present with
        | PresentResult.outOfDate =>
            some (advanced, t2 ++ recreateSwapChainTrace nFb nIv)
        | PresentResult.suboptimal =>
            some (advanced, t2 ++ recreateSwapChainTrace nFb nIv)
        | PresentResult.failure => some (s2, t2)
        | PresentResult.success => some (advanced, t2)

/-- The window events `VulkanEngine::Run` (lines 147-174) discriminates. -/
inductive Event
  | quit
  | windowResized
  | other
  deriving DecidableEq, Repr

/-- The event-handling switch of `VulkanEngine::Run` (lines 151-159) as a
trace: a resize event performs `vkDeviceWaitIdle` and then
`RecreateSwapChain`; a quit event clears `running_` and performs no Vulkan
call; other events perform none. -/
def handleEventTrace (e : Event) (nFb nIv : Nat) : List Action :=
  match e with
  | Event.windowResized => Action.deviceWaitIdle :: recreateSwapChainTrace nFb nIv
  | _ => []

/-! ## Initialization order -/

/-- The bring-up steps of `VulkanEngine::Init` (lines 121-145), plus the
`Run` and `Destroy` phases of `main`. -/
inductive Step
  | initSDL
  | initVulkanInstance
  | setupDebugMessenger
  | createSurface
  | pickPhysicalDevice
  | createLogicalDevice
  | createSwapChain
  | createImageViews
  | createRenderPass
  | createDescriptorSetLayout
  | createGraphicsPipeline
  | createFramebuffers
  | createCommandPool
  | createVertexBuffer
  | createIndexBuffer
  | createUniformBuffers
  | createDescriptorPool
  | createDescriptorSets
  | createCommandBuffer
  | createSyncObjects
  | initImGui
  | runLoop
  | destroyAll
  deriving DecidableEq, Repr

/-- The call sequence of `VulkanEngine::Init` (lines 121-145), in source
order. -/
def initSequence : List Step :=
  [Step.initSDL, Step.initVulkanInstance, Step.setupDebugMessenger,
   Step.createSurface, Step.pickPhysicalDevice, Step.createLogicalDevice,
   Step.createSwapChain, Step.createImageViews, Step.createRenderPass,
   Step.createDescriptorSetLayout, Step.createGraphicsPipeline,
   Step.createFramebuffers, Step.createCommandPool, Step.createVertexBuffer,
   Step.createIndexBuffer, Step.createUniformBuffers,
   Step.createDescriptorPool, Step.createDescriptorSets,
   Step.createCommandBuffer, Step.createSyncObjects, Step.initImGui]

/-- `main` (src/unnamed/part_004): `engine.Init(); engine.Run();
engine.Destroy();`. -/
def mainSequence : List Step :=
  initSequence ++ [Step.runLoop, Step.destroyAll]

/-! ## Specification-side predicates and sample driver data -/

/-- The acceptance condition of the `FindMemoryType` loop, as a
proposition about the driver data: bit `i` of the type filter is set and
the memory type's property flags contain every requested property. -/
def memoryTypeMatches (typeFilter properties : Nat) (t : MemoryType)
    (i : Nat) : Prop :=
  typeFilter &&& (1 <<< i) ≠ 0 ∧ t.propertyFlags &&& properties = properties

instance (typeFilter properties : Nat) (t : MemoryType) (i : Nat) :
    Decidable (memoryTypeMatches typeFilter properties t i) := by
  unfold memoryTypeMatches; infer_instance

/-- The recreation ordering demanded of a trace: a `vkDeviceWaitIdle`,
then the destruction of each framebuffer and each image view and of the
swapchain, then the creation of the new swapchain, image views and
framebuffers, in this relative order (stated as sub-list facts). -/
def recreationOrdered (nFb nIv : Nat) (tr : List Action) : Prop :=
  List.Sublist
    [Action.deviceWaitIdle, Action.destroySwapchain, Action.createSwapchain,
     Action.createImageViews, Action.createFramebuffers] tr ∧
  (∀ i < nFb, List.Sublist
    [Action.deviceWaitIdle, Action.destroyFramebuffer i,
     Action.destroySwapchain, Action.createSwapchain, Action.createImageViews,
     Action.createFramebuffers] tr) ∧
  (∀ i < nIv, List.Sublist
    [Action.deviceWaitIdle, Action.destroyImageView i,
     Action.destroySwapchain, Action.createSwapchain, Action.createImageViews,
     Action.createFramebuffers] tr)

/-- A driver report for a device whose only present mode is
`VK_PRESENT_MODE_MAILBOX_KHR`, used to exhibit the lost-present-modes
defect. -/
def mailboxOnlyDevice : PhysicalDevice :=
  { queueFamilies := [{ supportsGraphics := true, supportsPresentation := true }]
    extensions := ["VK_KHR_swapchain"]
    capabilities := { minImageCount := 2, maxImageCount := 8 }
    surfaceFormats := [{ format := 50, colorSpace := 0 }]
    presentModes := [PresentMode.mailbox] }

/-- A suitable device used as a concrete input for device selection. -/
def sampleSuitableDevice : PhysicalDevice :=
  { queueFamilies := [{ supportsGraphics := true, supportsPresentation := true }]
    extensions := ["VK_KHR_swapchain"]
    capabilities := { minImageCount := 2, maxImageCount := 0 }
    surfaceFormats := [{ format := 44, colorSpace := 0 }]
    presentModes := [PresentMode.fifo] }

/-! ## Helper lemmas -/

/-- `find?` returns a marked element when every element before it fails the
predicate. -/
theorem find?_append_cons_of_forall_not {α : Type} (p : α → Bool)
    (l₁ : List α) (a : α) (l₂ : List α) (ha : p a = true)
    (h₁ : ∀ x ∈ l₁, p x = false) :
    (l₁ ++ a :: l₂).find? p = some a := by
  induction l₁ with
  | nil => simpa using List.find?_cons_of_pos l₂ ha
  | cons x xs ih =>
      have hx : p x = false := h₁ x (by simp)
      rw [List.cons_append, List.find?_cons_of_neg _ (by simp [hx])]
      exact ih fun y hy => h₁ y (by simp [hy])

/-- On a non-empty list, `chooseSwapSurfaceFormat` always yields a value. -/
theorem chooseSwapSurfaceFormat_isSome (l : List SurfaceFormat) (h : l ≠ []) :
    (chooseSwapSurfaceFormat l).isSome = true := by
  unfold chooseSwapSurfaceFormat
  cases hf : l.find? isPreferredSurfaceFormat with
  | some f => simp
  | none =>
      obtain ⟨x, xs, rfl⟩ := List.exists_cons_of_ne_nil h
      simp

/-- A suitable device reports at least one surface format. -/
theorem isDeviceSuitable_formats_ne_nil (d : PhysicalDevice)
    (h : isDeviceSuitable d = true) : d.surfaceFormats ≠ [] := by
  intro hnil
  unfold isDeviceSuitable at h
  rw [Bool.and_eq_true, Bool.and_eq_true] at h
  rcases h with ⟨⟨-, -⟩, hadq⟩
  by_cases hext : checkDeviceExtensionSupport d = true
  · rw [if_pos hext, Bool.and_eq_true] at hadq
    rcases hadq with ⟨hfmt, -⟩
    rw [querySwapChainSupport, hnil] at hfmt
    simp at hfmt
  · rw [if_neg hext] at hadq
    exact Bool.false_ne_true hadq

/-! ## C9: surface-format selection is safe and selects the preferred
format first -/

/-- C9: applied to any non-empty format list, `ChooseSwapSurfaceFormat`
returns a value (the `available_formats[0]` access is in bounds); it
returns the first entry that is `VK_FORMAT_B8G8R8A8_SRGB` with sRGB
nonlinear color space when one exists and the head of the list otherwise;
and every suitable device hands its callers a non-empty format list, so
the access is safe along the engine's call chain. -/
theorem chooseSwapSurfaceFormat_spec (l : List SurfaceFormat) (h : l ≠ []) :
    (chooseSwapSurfaceFormat l).isSome = true ∧
    (∀ l₁ f l₂, l = l₁ ++ f :: l₂ → isPreferredSurfaceFormat f = true →
        (∀ g ∈ l₁, isPreferredSurfaceFormat g = false) →
        chooseSwapSurfaceFormat l = some f) ∧
    ((∀ g ∈ l, isPreferredSurfaceFormat g = false) →
        chooseSwapSurfaceFormat l = l.head?) ∧
    (∀ d : PhysicalDevice, isDeviceSuitable d = true →
        (chooseSwapSurfaceFormat (querySwapChainSupport d).formats).isSome = true) := by
  refine ⟨chooseSwapSurfaceFormat_isSome l h, ?_, ?_, ?_⟩
  · intro l₁ f l₂ hsplit hf hbefore
    unfold chooseSwapSurfaceFormat
    rw [hsplit, find?_append_cons_of_forall_not _ _ _ _ hf hbefore]
  · intro hall
    unfold chooseSwapSurfaceFormat
    rw [List.find?_eq_none.mpr fun x hx => by simp [hall x hx]]
  · intro d hd
    exact chooseSwapSurfaceFormat_isSome _ (by
      simpa [querySwapChainSupport] using isDeviceSuitable_formats_ne_nil d hd)

/-- C9 witness: on the one-element list holding the preferred format, the
selection returns that format. -/
theorem chooseSwapSurfaceFormat_spec_witness :
    chooseSwapSurfaceFormat [⟨50, 0⟩] = some ⟨50, 0⟩ :=
  (chooseSwapSurfaceFormat_spec [⟨50, 0⟩] (by decide)).2.1 [] ⟨50, 0⟩ []
    rfl (by decide) (fun g hg => absurd hg (List.not_mem_nil g))

/-! ## C8: the present-mode query loses the driver's present modes -/

/-- C8: for a device whose driver reports exactly `[MAILBOX]`,
`QuerySwapChainSupport` returns a present-mode list of the right length
whose contents are not the driver's modes (the second
`vkGetPhysicalDeviceSurfacePresentModesKHR` call passes `nullptr`, leaving
the value-initialized zero entries, i.e. `IMMEDIATE`), so
`ChooseSwapPresentMode` returns `FIFO` even though the device offers
`MAILBOX`. -/
theorem querySwapChainSupport_dropsPresentModes :
    (querySwapChainSupport mailboxOnlyDevice).present_modes.length =
        mailboxOnlyDevice.presentModes.length ∧
    (querySwapChainSupport mailboxOnlyDevice).present_modes =
        [PresentMode.immediate] ∧
    (querySwapChainSupport mailboxOnlyDevice).present_modes ≠
        mailboxOnlyDevice.presentModes ∧
    PresentMode.mailbox ∈ mailboxOnlyDevice.presentModes ∧
    chooseSwapPresentMode
        (querySwapChainSupport mailboxOnlyDevice).present_modes =
      PresentMode.fifo := by
  refine ⟨rfl, rfl, by decide, by simp [mailboxOnlyDevice], rfl⟩

/-! ## C7: requested swapchain image count -/

/-- C7 counterexample: `image_count` is a `uint32_t`, so at
`minImageCount = 2^32 - 1` (with `maxImageCount = 0`) the computed count
wraps to `0`, which is not `minImageCount + 1`. -/
theorem requestedImageCount_wraps :
    requestedImageCount ⟨2 ^ 32 - 1, 0⟩ = 0 ∧
    (2 ^ 32 - 1) + 1 ≠ 0 := by
  constructor
  · show (if ((0 : Nat) > 0 && decide (((2 ^ 32 - 1 + 1) % 2 ^ 32) > 0))
        then (0 : Nat) else (2 ^ 32 - 1 + 1) % 2 ^ 32) = 0
    norm_num
  · decide

/-- C7 (amended): unless the 32-bit increment wraps (`minImageCount =
2^32 - 1`), the requested count is `minImageCount + 1`, lowered to exactly
`maxImageCount` when that is nonzero and exceeded; the requested count
never exceeds a nonzero `maxImageCount`. -/
theorem requestedImageCount_spec (caps : SurfaceCapabilities)
    (hNoWrap : caps.minImageCount + 1 < 2 ^ 32) :
    (caps.maxImageCount ≠ 0 → requestedImageCount caps ≤ caps.maxImageCount) ∧
    (caps.maxImageCount ≠ 0 → caps.minImageCount + 1 > caps.maxImageCount →
        requestedImageCount caps = caps.maxImageCount) ∧
    (caps.maxImageCount = 0 ∨ caps.minImageCount + 1 ≤ caps.maxImageCount →
        requestedImageCount caps = caps.minImageCount + 1) := by
  have hreq : requestedImageCount caps =
      if (decide (caps.maxImageCount > 0) &&
          decide (caps.minImageCount + 1 > caps.maxImageCount)) = true
      then caps.maxImageCount else caps.minImageCount + 1 := by
    unfold requestedImageCount
    rw [Nat.mod_eq_of_lt hNoWrap]
  rw [hreq]
  refine ⟨?_, ?_, ?_⟩
  · intro hmax
    split
    · omega
    · rename_i hcond
      rw [Bool.and_eq_true, decide_eq_true_iff, decide_eq_true_iff] at hcond
      omega
  · intro hmax hgt
    rw [if_pos]
    rw [Bool.and_eq_true, decide_eq_true_iff, decide_eq_true_iff]
    exact ⟨by omega, hgt⟩
  · intro hle
    rw [if_neg]
    rw [Bool.and_eq_true, decide_eq_true_iff, decide_eq_true_iff]
    omega

/-- C7 witness: with `minImageCount = 2` and `maxImageCount = 8` the
engine requests `3` images. -/
theorem requestedImageCount_spec_witness :
    requestedImageCount ⟨2, 8⟩ = 2 + 1 :=
  (requestedImageCount_spec ⟨2, 8⟩ (by norm_num)).2.2 (Or.inr (by norm_num))

/-! ## C6: each frame records exactly one draw of the constant mesh -/

/-- C6: for every frame slot and image index, the recorded command buffer
binds the graphics pipeline once, the single vertex buffer once and the
single index buffer once, and issues exactly one `vkCmdDrawIndexed`, with
index count the length of the constant 6-element index list and instance
count 1; the mesh constants are the 4-vertex and 6-index lists of
lines 64-69, which no engine operation modifies (they live outside the
engine state). -/
theorem recordCommandBuffer_singleDraw (cf ii : Nat) :
    (recordCommandBuffer cf ii).filter Command.isDrawIndexed =
        [Command.drawIndexed indices.length 1 0 0 0] ∧
    ((recordCommandBuffer cf ii).filter Command.isBindPipeline).length = 1 ∧
    ((recordCommandBuffer cf ii).filter Command.isBindVertexBuffers).length = 1 ∧
    ((recordCommandBuffer cf ii).filter Command.isBindIndexBuffer).length = 1 ∧
    indices.length = 6 ∧
    vertices.length = 4 ∧
    indices = [0, 1, 2, 2, 3, 0] := by
  refine ⟨?_, ?_, ?_, ?_, rfl, rfl, rfl⟩ <;>
    simp [recordCommandBuffer, List.filter, Command.isDrawIndexed,
      Command.isBindPipeline, Command.isBindVertexBuffers,
      Command.isBindIndexBuffer]

/-! ## C4: linear bring-up order -/

/-- C4: `Init` picks the physical device before creating the logical
device, creates the swapchain only after the logical device, builds the
render pass and the graphics pipeline only after the swapchain and its
image views, and `main` enters `Run` only after every `Init` step. -/
theorem initSequence_ordered :
    mainSequence.indexOf Step.pickPhysicalDevice <
        mainSequence.indexOf Step.createLogicalDevice ∧
    mainSequence.indexOf Step.createLogicalDevice <
        mainSequence.indexOf Step.createSwapChain ∧
    mainSequence.indexOf Step.createSwapChain <
        mainSequence.indexOf Step.createImageViews ∧
    mainSequence.indexOf Step.createSwapChain <
        mainSequence.indexOf Step.createRenderPass ∧
    mainSequence.indexOf Step.createImageViews <
        mainSequence.indexOf Step.createRenderPass ∧
    mainSequence.indexOf Step.createSwapChain <
        mainSequence.indexOf Step.createGraphicsPipeline ∧
    mainSequence.indexOf Step.createImageViews <
        mainSequence.indexOf Step.createGraphicsPipeline ∧
    (∀ s ∈ initSequence,
        mainSequence.indexOf s < mainSequence.indexOf Step.runLoop) := by
  decide

/-- C4 witness: the SDL bring-up step precedes the per-frame loop. -/
theorem initSequence_ordered_witness :
    mainSequence.indexOf Step.initSDL < mainSequence.indexOf Step.runLoop :=
  initSequence_ordered.2.2.2.2.2.2.2 Step.initSDL (by decide)

/-! ## C5: device selection -/

/-- The update step records a graphics family exactly when one was already
recorded or the current family has the graphics bit. -/
theorem updateQueueFamilyIndices_graphics (qf : QueueFamily) (i : Nat)
    (acc : QueueFamilyIndices) :
    (updateQueueFamilyIndices qf i acc).graphics_family.isSome =
      (acc.graphics_family.isSome || qf.supportsGraphics) := by
  unfold updateQueueFamilyIndices
  cases hg : qf.supportsGraphics <;> cases hp : qf.supportsPresentation <;> simp

/-- The update step records a presentation family exactly when one was
already recorded or the current family supports presentation. -/
theorem updateQueueFamilyIndices_presentation (qf : QueueFamily) (i : Nat)
    (acc : QueueFamilyIndices) :
    (updateQueueFamilyIndices qf i acc).presentation_family.isSome =
      (acc.presentation_family.isSome || qf.supportsPresentation) := by
  unfold updateQueueFamilyIndices
  cases hg : qf.supportsGraphics <;> cases hp : qf.supportsPresentation <;> simp

/-- The queue-family loop finds a graphics (resp. presentation) family
exactly when the accumulator already has one or some family in the list
qualifies; the early break cannot lose a family. -/
theorem findQueueFamiliesLoop_isSome (l : List QueueFamily) :
    ∀ (i : Nat) (acc : QueueFamilyIndices),
      ((findQueueFamiliesLoop l i acc).graphics_family.isSome =
        (acc.graphics_family.isSome || l.any fun qf => qf.supportsGraphics)) ∧
      ((findQueueFamiliesLoop l i acc).presentation_family.isSome =
        (acc.presentation_family.isSome ||
          l.any fun qf => qf.supportsPresentation)) := by
  induction l with
  | nil => intro i acc; simp [findQueueFamiliesLoop]
  | cons qf rest ih =>
      intro i acc
      simp only [findQueueFamiliesLoop, List.any_cons]
      split
      · rename_i hc
        rw [QueueFamilyIndices.IsComplete, Bool.and_eq_true] at hc
        rcases hc with ⟨hcg, hcp⟩
        rw [updateQueueFamilyIndices_graphics] at hcg
        rw [updateQueueFamilyIndices_presentation] at hcp
        constructor
        · rw [updateQueueFamilyIndices_graphics, hcg, ← Bool.or_assoc, hcg,
            Bool.true_or]
        · rw [updateQueueFamilyIndices_presentation, hcp, ← Bool.or_assoc, hcp,
            Bool.true_or]
      · rcases ih (i + 1) (updateQueueFamilyIndices qf i acc) with ⟨ih1, ih2⟩
        rw [updateQueueFamilyIndices_graphics] at ih1
        rw [updateQueueFamilyIndices_presentation] at ih2
        exact ⟨by rw [ih1, Bool.or_assoc], by rw [ih2, Bool.or_assoc]⟩

/-- `FindQueueFamilies` yields complete indices exactly when some family
has the graphics bit and some family supports presentation. -/
theorem findQueueFamilies_isComplete (d : PhysicalDevice) :
    (findQueueFamilies d).IsComplete =
      ((d.queueFamilies.any fun qf => qf.supportsGraphics) &&
        d.queueFamilies.any fun qf => qf.supportsPresentation) := by
  rcases findQueueFamiliesLoop_isSome d.queueFamilies 0 ⟨none, none⟩ with ⟨h1, h2⟩
  rw [QueueFamilyIndices.IsComplete, findQueueFamilies, h1, h2]
  simp

/-- Device suitability, characterized by the driver-reported data: a
graphics queue family, a presentation queue family, the swapchain
extension, and non-empty surface-format and present-mode lists. -/
theorem isDeviceSuitable_iff (d : PhysicalDevice) :
    isDeviceSuitable d = true ↔
      ((∃ qf ∈ d.queueFamilies, qf.supportsGraphics = true) ∧
       (∃ qf ∈ d.queueFamilies, qf.supportsPresentation = true) ∧
       "VK_KHR_swapchain" ∈ d.extensions ∧
       d.surfaceFormats ≠ [] ∧
       d.presentModes ≠ []) := by
  simp only [isDeviceSuitable]
  by_cases hext : checkDeviceExtensionSupport d = true
  · have hmem : "VK_KHR_swapchain" ∈ d.extensions := by
      have := hext
      rw [checkDeviceExtensionSupport, kDeviceExtensions] at this
      simp only [List.all_cons, List.all_nil, Bool.and_true] at this
      exact List.elem_iff.mp this
    rw [if_pos hext, hext]
    simp [findQueueFamilies_isComplete, querySwapChainSupport, hmem,
      List.any_eq_true, List.isEmpty_iff, List.replicate_eq_nil_iff,
      ← List.length_eq_zero, and_assoc]
  · have hmem : ¬ "VK_KHR_swapchain" ∈ d.extensions := by
      intro hm
      apply hext
      rw [checkDeviceExtensionSupport, kDeviceExtensions]
      simp only [List.all_cons, List.all_nil, Bool.and_true]
      exact List.elem_iff.mpr hm
    rw [if_neg hext]
    simp [hmem, Bool.eq_false_iff.mpr hext]

/-- C5: `PickPhysicalDevice` selects the first enumerated suitable device;
suitability is exactly a graphics family, a presentation family, swapchain
extension support and non-empty format and present-mode lists; and when no
enumerated device is suitable the selected device stays null
(`physical_device_ == VK_NULL_HANDLE`) and an error is logged. -/
theorem pickPhysicalDevice_spec (devices : List PhysicalDevice) :
    (pickPhysicalDevice devices).1 = devices.find? isDeviceSuitable ∧
    (∀ l₁ d l₂, devices = l₁ ++ d :: l₂ → isDeviceSuitable d = true →
        (∀ e ∈ l₁, isDeviceSuitable e = false) →
        (pickPhysicalDevice devices).1 = some d) ∧
    (∀ d, isDeviceSuitable d = true ↔
        ((∃ qf ∈ d.queueFamilies, qf.supportsGraphics = true) ∧
         (∃ qf ∈ d.queueFamilies, qf.supportsPresentation = true) ∧
         "VK_KHR_swapchain" ∈ d.extensions ∧
         d.surfaceFormats ≠ [] ∧
         d.presentModes ≠ [])) ∧
    (devices.find? isDeviceSuitable = none →
        pickPhysicalDevice devices = (none, true)) := by
  have hfind : (pickPhysicalDevice devices).1 = devices.find? isDeviceSuitable := by
    unfold pickPhysicalDevice
    rcases devices with _ | ⟨d, rest⟩
    · simp
    · rw [if_neg (by simp)]
      cases hf : (d :: rest).find? isDeviceSuitable <;> simp [hf]
  refine ⟨hfind, ?_, fun d => isDeviceSuitable_iff d, ?_⟩
  · intro l₁ d l₂ hsplit hd hbefore
    rw [hfind, hsplit, find?_append_cons_of_forall_not _ _ _ _ hd hbefore]
  · intro hnone
    unfold pickPhysicalDevice
    rcases devices with _ | ⟨d, rest⟩
    · simp
    · rw [if_neg (by simp), hnone]

/-- C5 witness: a one-device enumeration whose device is suitable gets
selected. -/
theorem pickPhysicalDevice_spec_witness :
    (pickPhysicalDevice [sampleSuitableDevice]).1 = some sampleSuitableDevice :=
  (pickPhysicalDevice_spec [sampleSuitableDevice]).2.1 [] sampleSuitableDevice []
    rfl (by decide) (fun e he => absurd he (List.not_mem_nil e))

/-! ## C10: memory-type search -/

/-- The loop's Bool test agrees with the propositional acceptance
condition. -/
theorem findMemoryType_cond_iff (tf props : Nat) (t : MemoryType) (i : Nat) :
    ((tf &&& (1 <<< i)) != 0 &&
        (t.propertyFlags &&& props) == props) = true ↔
      memoryTypeMatches tf props t i := by
  rw [memoryTypeMatches, Bool.and_eq_true, bne_iff_ne, beq_iff_eq]

/-- The search loop returns `none` exactly when no element of the
remaining list is acceptable at its absolute index. -/
theorem findMemoryTypeLoop_eq_none (types : List MemoryType) :
    ∀ (tf props k : Nat),
      findMemoryTypeLoop types tf props k = none ↔
        ∀ j, (hj : j < types.length) →
          ¬ memoryTypeMatches tf props (types.get ⟨j, hj⟩) (k + j) := by
  induction types with
  | nil => intro tf props k; simp [findMemoryTypeLoop]
  | cons t rest ih =>
      intro tf props k
      rw [findMemoryTypeLoop]
      by_cases hm : memoryTypeMatches tf props t k
      · rw [if_pos ((findMemoryType_cond_iff tf props t k).mpr hm)]
        constructor
        · intro h; exact absurd h (by simp)
        · intro hall
          exact absurd hm (by simpa using hall 0 (by simp))
      · rw [if_neg (fun hc => hm ((findMemoryType_cond_iff tf props t k).mp hc))]
        rw [ih tf props (k + 1)]
        constructor
        · intro hall j hj
          match j with
          | 0 => simpa using hm
          | j + 1 =>
              have hj2 : j < rest.length := by simpa using hj
              have := hall j hj2
              have harith : k + 1 + j = k + (j + 1) := by omega
              rw [harith] at this
              simpa using this
        · intro hall j hj
          have := hall (j + 1) (by simpa using Nat.succ_lt_succ hj)
          have harith : k + (j + 1) = k + 1 + j := by omega
          rw [harith] at this
          simpa using this

/-- When the search loop succeeds it returns the absolute index of the
first acceptable element. -/
theorem findMemoryTypeLoop_eq_some (types : List MemoryType) :
    ∀ (tf props k r : Nat), findMemoryTypeLoop types tf props k = some r →
      ∃ j, ∃ hj : j < types.length, r = k + j ∧
        memoryTypeMatches tf props (types.get ⟨j, hj⟩) (k + j) ∧
        ∀ j2, (hj2 : j2 < types.length) → j2 < j →
          ¬ memoryTypeMatches tf props (types.get ⟨j2, hj2⟩) (k + j2) := by
  induction types with
  | nil => intro tf props k r h; exact absurd h (by simp [findMemoryTypeLoop])
  | cons t rest ih =>
      intro tf props k r h
      rw [findMemoryTypeLoop] at h
      by_cases hm : memoryTypeMatches tf props t k
      · rw [if_pos ((findMemoryType_cond_iff tf props t k).mpr hm)] at h
        refine ⟨0, by simp, by simpa using h.symm, by simpa using hm, ?_⟩
        intro j2 hj2 hlt
        exact absurd hlt (by omega)
      · rw [if_neg (fun hc => hm ((findMemoryType_cond_iff tf props t k).mp hc))] at h
        obtain ⟨j, hj, hr, hmj, hleast⟩ := ih tf props (k + 1) r h
        have harith : k + 1 + j = k + (j + 1) := by omega
        refine ⟨j + 1, by simpa using Nat.succ_lt_succ hj, by omega, ?_, ?_⟩
        · rw [harith] at hmj; simpa using hmj
        · intro j2 hj2 hlt
          match j2 with
          | 0 => simpa using hm
          | j2 + 1 =>
              have hj3 : j2 < rest.length := by simpa using hj2
              have := hleast j2 hj3 (by omega)
              have harith2 : k + 1 + j2 = k + (j2 + 1) := by omega
              rw [harith2] at this
              simpa using this

/-- C10: `FindMemoryType` returns the smallest memory-type index allowed
by the type filter whose property flags contain every requested property;
when no index qualifies it logs an error and returns `0` — a value equal
to a legitimate answer of index 0 (shown on two concrete inputs), with no
failure signaled through the return value. -/
theorem findMemoryType_spec (mts : List MemoryType) (tf props : Nat) :
    (∀ i, (hi : i < mts.length) →
        memoryTypeMatches tf props (mts.get ⟨i, hi⟩) i →
        ∃ h : (findMemoryType mts tf props).1 < mts.length,
          memoryTypeMatches tf props
              (mts.get ⟨(findMemoryType mts tf props).1, h⟩)
              (findMemoryType mts tf props).1 ∧
          (findMemoryType mts tf props).2 = false ∧
          ∀ j, (hj : j < mts.length) → j < (findMemoryType mts tf props).1 →
            ¬ memoryTypeMatches tf props (mts.get ⟨j, hj⟩) j) ∧
    ((∀ i, (hi : i < mts.length) →
        ¬ memoryTypeMatches tf props (mts.get ⟨i, hi⟩) i) →
      findMemoryType mts tf props = (0, true)) ∧
    findMemoryType [⟨1⟩] 1 1 = (0, false) ∧
    findMemoryType [⟨0⟩] 1 1 = (0, true) ∧
    (findMemoryType [⟨1⟩] 1 1).1 = (findMemoryType [⟨0⟩] 1 1).1 := by
  refine ⟨?_, ?_, by decide, by decide, by decide⟩
  · intro i hi hm
    cases hloop : findMemoryTypeLoop mts tf props 0 with
    | none =>
        have := (findMemoryTypeLoop_eq_none mts tf props 0).mp hloop i hi
        rw [Nat.zero_add] at this
        exact absurd hm this
    | some r =>
        obtain ⟨j, hj, hr, hmj, hleast⟩ :=
          findMemoryTypeLoop_eq_some mts tf props 0 r hloop
        rw [Nat.zero_add] at hr
        subst hr
        have hres : findMemoryType mts tf props = (r, false) := by
          rw [findMemoryType, hloop]
        rw [hres]
        refine ⟨hj, by simpa using hmj, rfl, ?_⟩
        intro j2 hj2 hlt
        have := hleast j2 hj2 hlt
        rw [Nat.zero_add] at this
        exact this
  · intro hall
    rw [findMemoryType,
      (findMemoryTypeLoop_eq_none mts tf props 0).mpr
        (fun j hj => by rw [Nat.zero_add]; exact hall j hj)]

/-- C10 witness: on a one-type table whose type 0 qualifies, the search
reports index 0 without taking the failure path. -/
theorem findMemoryType_spec_witness :
    (findMemoryType [⟨1⟩] 1 1).2 = false := by
  obtain ⟨h, hm, hfalse, hleast⟩ :=
    (findMemoryType_spec [⟨1⟩] 1 1).1 0 (by decide) (by decide)
  exact hfalse

/-! ## Frame-loop helper lemmas -/

/-- Normal form of the recreation trace with right-nested appends. -/
theorem recreateSwapChainTrace_eq (nFb nIv : Nat) :
    recreateSwapChainTrace nFb nIv =
      Action.deviceWaitIdle ::
        ((List.range nFb).map Action.destroyFramebuffer ++
          ((List.range nIv).map Action.destroyImageView ++
            (Action.destroySwapchain ::
              [Action.createSwapchain, Action.createImageViews,
               Action.createFramebuffers]))) := by
  simp [recreateSwapChainTrace, cleanupSwapChainTrace]

/-- The recreation trace satisfies the recreation ordering. -/
theorem recreationOrdered_recreateSwapChainTrace (nFb nIv : Nat) :
    recreationOrdered nFb nIv (recreateSwapChainTrace nFb nIv) := by
  rw [recreationOrdered, recreateSwapChainTrace_eq]
  refine ⟨?_, ?_, ?_⟩
  · refine List.Sublist.cons₂ _ ?_
    exact (List.sublist_append_right _ _).trans (List.sublist_append_right _ _)
  · intro i hi
    refine List.Sublist.cons₂ _ ?_
    have h2 : [Action.destroyFramebuffer i].Sublist
        ((List.range nFb).map Action.destroyFramebuffer) :=
      List.singleton_sublist.mpr
        (List.mem_map.mpr ⟨i, List.mem_range.mpr hi, rfl⟩)
    exact List.Sublist.append h2 (List.sublist_append_right _ _)
  · intro i hi
    refine List.Sublist.cons₂ _ ?_
    have h2 : [Action.destroyImageView i].Sublist
        ((List.range nIv).map Action.destroyImageView) :=
      List.singleton_sublist.mpr
        (List.mem_map.mpr ⟨i, List.mem_range.mpr hi, rfl⟩)
    exact (List.Sublist.append h2 (List.Sublist.refl _)).trans
      (List.sublist_append_right _ _)

/-- The recreation ordering survives prepending earlier actions. -/
theorem recreationOrdered_append_left (nFb nIv : Nat) (pre tr : List Action)
    (h : recreationOrdered nFb nIv tr) :
    recreationOrdered nFb nIv (pre ++ tr) :=
  ⟨h.1.trans (List.sublist_append_right pre tr),
   fun i hi => (h.2.1 i hi).trans (List.sublist_append_right pre tr),
   fun i hi => (h.2.2 i hi).trans (List.sublist_append_right pre tr)⟩

/-- The recreation trace never resets a fence. -/
theorem resetFence_not_mem_recreate (j nFb nIv : Nat) :
    Action.resetFence j ∉ recreateSwapChainTrace nFb nIv := by
  simp [recreateSwapChainTrace, cleanupSwapChainTrace]

/-- The recreation trace never resets a command buffer. -/
theorem resetCommandBuffer_not_mem_recreate (j nFb nIv : Nat) :
    Action.resetCommandBuffer j ∉ recreateSwapChainTrace nFb nIv := by
  simp [recreateSwapChainTrace, cleanupSwapChainTrace]

/-- The recreation trace never records commands. -/
theorem recordCommands_not_mem_recreate (j ii nFb nIv : Nat) :
    Action.recordCommands j ii ∉ recreateSwapChainTrace nFb nIv := by
  simp [recreateSwapChainTrace, cleanupSwapChainTrace]

/-! ## C1: double buffering and frame-slot advance -/

/-- C1: `kMaxFramesInFlight` is 2; starting from a slot index below 2 the
slot index stays below 2 (it starts at 0), and on a successfully presented
frame `DrawFrame` advances it by exactly one modulo
`kMaxFramesInFlight`. -/
theorem drawFrame_advancesFrameSlot (env : FrameEnv) (s : FrameState)
    (nFb nIv : Nat) (s2 : FrameState) (tr : List Action)
    (hlt : s.currentFrame < kMaxFramesInFlight)
    (h : drawFrame env s nFb nIv = some (s2, tr)) :
    kMaxFramesInFlight = 2 ∧
    initialFrameState.currentFrame = 0 ∧
    s2.currentFrame < kMaxFramesInFlight ∧
    (env.acquire ≠ AcquireResult.outOfDate →
      env.acquire ≠ AcquireResult.failure →
      env.submitOk = true → env.present = PresentResult.success →
      s2.currentFrame = (s.currentFrame + 1) % kMaxFramesInFlight) := by
  have hmod : ∀ n : Nat, (n + 1) % kMaxFramesInFlight < kMaxFramesInFlight :=
    fun n => Nat.mod_lt _ (by decide)
  obtain ⟨acq, ii, sub, pres⟩ := env
  refine ⟨rfl, rfl, ?_, ?_⟩
  · unfold drawFrame at h
    split at h
    · simp at h
    · cases acq <;>
      first
        | (simp only [Option.some.injEq, Prod.mk.injEq] at h
           obtain ⟨rfl, -⟩ := h
           exact hlt)
        | (cases sub <;> simp only [Bool.false_eq_true, if_pos, if_neg,
            if_true, if_false, reduceIte] at h
           · simp only [Option.some.injEq, Prod.mk.injEq] at h
             obtain ⟨rfl, -⟩ := h
             exact hlt
           · cases pres <;>
               simp only [Option.some.injEq, Prod.mk.injEq] at h <;>
               obtain ⟨rfl, -⟩ := h <;>
               first | exact hmod _ | exact hlt)
  · intro hacq hfail hsub hpres
    simp only at hacq hfail hsub hpres
    cases acq
    case outOfDate => exact absurd rfl hacq
    case failure => exact absurd rfl hfail
    all_goals
      subst hsub
      subst hpres
      unfold drawFrame at h
      split at h
      · simp at h
      · simp only [Bool.true_eq_false, reduceIte, Option.some.injEq,
          Prod.mk.injEq] at h
        obtain ⟨rfl, -⟩ := h
        rfl

/-- C1 witness: from the initial state, a fully successful frame advances
the slot index. -/
theorem drawFrame_advancesFrameSlot_witness : kMaxFramesInFlight = 2 := by
  have h := drawFrame_advancesFrameSlot
    ⟨AcquireResult.success, 0, true, PresentResult.success⟩ initialFrameState
    1 1
    ⟨1 % kMaxFramesInFlight,
      Function.update (Function.update initialFrameState.fences 0 false) 0 true⟩
    [Action.waitFence 0, Action.acquireImage 0, Action.updateUniform 0,
     Action.resetFence 0, Action.resetCommandBuffer 0,
     Action.recordCommands 0 0, Action.queueSubmit 0, Action.queuePresent]
    (by decide) rfl
  exact h.1

/-! ## C2: fence discipline -/

/-- `DrawFrame` terminates (the initial `vkWaitForFences` does not block
forever) whenever the current slot's fence is signaled or armed. -/
theorem drawFrame_isSome (env : FrameEnv) (s : FrameState) (nFb nIv : Nat)
    (hsig : s.fences s.currentFrame = true) :
    (drawFrame env s nFb nIv).isSome = true := by
  obtain ⟨acq, ii, sub, pres⟩ := env
  unfold drawFrame
  rw [if_neg (by simp [hsig])]
  cases acq <;> cases sub <;> cases pres <;> simp

/-- C2: every fence starts signaled; when the current slot's fence is
signaled or armed, `DrawFrame` completes, its first action is the wait on
that slot's fence — before any reset or re-recording of that slot's
command buffer (the only command buffer it touches) — the fence is reset
only when acquisition returned success or suboptimal, and an early return
from an out-of-date swapchain or an acquire failure leaves the state (and
so the signaled fence) unchanged, so the next `DrawFrame` on that slot
cannot deadlock. -/
theorem drawFrame_fenceDiscipline (env : FrameEnv) (s : FrameState)
    (nFb nIv : Nat) (hsig : s.fences s.currentFrame = true) :
    (∀ i, initialFrameState.fences i = true) ∧
    ∃ s2 tr, drawFrame env s nFb nIv = some (s2, tr) ∧
      (∃ rest, tr = Action.waitFence s.currentFrame :: rest) ∧
      (∀ j, Action.resetCommandBuffer j ∈ tr → j = s.currentFrame) ∧
      (∀ j ii2, Action.recordCommands j ii2 ∈ tr → j = s.currentFrame) ∧
      (Action.resetFence s.currentFrame ∈ tr →
        env.acquire = AcquireResult.success ∨
          env.acquire = AcquireResult.suboptimal) ∧
      ((env.acquire = AcquireResult.outOfDate ∨
          env.acquire = AcquireResult.failure) →
        s2 = s ∧ ∀ env2 nFb2 nIv2, (drawFrame env2 s2 nFb2 nIv2).isSome = true) := by
  obtain ⟨acq, ii, sub, pres⟩ := env
  refine ⟨fun i => rfl, ?_⟩
  cases acq
  case outOfDate =>
      refine ⟨s, [Action.waitFence s.currentFrame,
          Action.acquireImage s.currentFrame] ++ recreateSwapChainTrace nFb nIv,
        ?_, ⟨_, rfl⟩, ?_, ?_, ?_, ?_⟩
      · unfold drawFrame
        rw [if_neg (by simp [hsig])]
      · intro j hj
        simp [resetCommandBuffer_not_mem_recreate] at hj
      · intro j ii2 hj
        simp [recordCommands_not_mem_recreate] at hj
      · intro hmem
        exact absurd hmem (by simp [resetFence_not_mem_recreate])
      · intro hor
        exact ⟨rfl, fun env2 nFb2 nIv2 => drawFrame_isSome env2 s nFb2 nIv2 hsig⟩
  case failure =>
      refine ⟨s, [Action.waitFence s.currentFrame,
          Action.acquireImage s.currentFrame], ?_, ⟨_, rfl⟩, ?_, ?_, ?_, ?_⟩
      · unfold drawFrame
        rw [if_neg (by simp [hsig])]
      · intro j hj
        simp at hj
      · intro j ii2 hj
        simp at hj
      · intro hmem
        exact absurd hmem (by simp)
      · intro hor
        exact ⟨rfl, fun env2 nFb2 nIv2 => drawFrame_isSome env2 s nFb2 nIv2 hsig⟩
  all_goals {
    cases sub
    · refine ⟨{ s with fences := Function.update s.fences s.currentFrame false },
        [Action.waitFence s.currentFrame, Action.acquireImage s.currentFrame,
         Action.updateUniform s.currentFrame, Action.resetFence s.currentFrame,
         Action.resetCommandBuffer s.currentFrame,
         Action.recordCommands s.currentFrame ii,
         Action.queueSubmit s.currentFrame], ?_, ⟨_, rfl⟩, ?_, ?_, ?_, ?_⟩
      · simp [drawFrame, hsig]
      · intro j hj
        simp at hj
        exact hj
      · intro j ii2 hj
        simp at hj
        exact hj.1
      · intro hmem
        first | exact Or.inl rfl | exact Or.inr rfl
      · intro hor
        rcases hor with h | h <;> simp at h
    · cases pres
      · refine ⟨{ s with currentFrame := (s.currentFrame + 1) % kMaxFramesInFlight, fences := Function.update (Function.update s.fences s.currentFrame false) s.currentFrame true },
          [Action.waitFence s.currentFrame, Action.acquireImage s.currentFrame,
           Action.updateUniform s.currentFrame, Action.resetFence s.currentFrame,
           Action.resetCommandBuffer s.currentFrame,
           Action.recordCommands s.currentFrame ii,
           Action.queueSubmit s.currentFrame, Action.queuePresent],
          ?_, ⟨_, rfl⟩, ?_, ?_, ?_, ?_⟩
        · simp [drawFrame, hsig]
        · intro j hj
          simp at hj
          exact hj
        · intro j ii2 hj
          simp at hj
          exact hj.1
        · intro hmem
          first | exact Or.inl rfl | exact Or.inr rfl
        · intro hor
          rcases hor with h | h <;> simp at h
      · refine ⟨{ s with currentFrame := (s.currentFrame + 1) % kMaxFramesInFlight, fences := Function.update (Function.update s.fences s.currentFrame false) s.currentFrame true },
          [Action.waitFence s.currentFrame, Action.acquireImage s.currentFrame,
           Action.updateUniform s.currentFrame, Action.resetFence s.currentFrame,
           Action.resetCommandBuffer s.currentFrame,
           Action.recordCommands s.currentFrame ii,
           Action.queueSubmit s.currentFrame, Action.queuePresent] ++
            recreateSwapChainTrace nFb nIv,
          ?_, ⟨_, rfl⟩, ?_, ?_, ?_, ?_⟩
        · simp [drawFrame, hsig]
        · intro j hj
          simp [resetCommandBuffer_not_mem_recreate] at hj
          exact hj
        · intro j ii2 hj
          simp [recordCommands_not_mem_recreate] at hj
          exact hj.1
        · intro hmem
          first | exact Or.inl rfl | exact Or.inr rfl
        · intro hor
          rcases hor with h | h <;> simp at h
      · refine ⟨{ s with currentFrame := (s.currentFrame + 1) % kMaxFramesInFlight, fences := Function.update (Function.update s.fences s.currentFrame false) s.currentFrame true },
          [Action.waitFence s.currentFrame, Action.acquireImage s.currentFrame,
           Action.updateUniform s.currentFrame, Action.resetFence s.currentFrame,
           Action.resetCommandBuffer s.currentFrame,
           Action.recordCommands s.currentFrame ii,
           Action.queueSubmit s.currentFrame, Action.queuePresent] ++
            recreateSwapChainTrace nFb nIv,
          ?_, ⟨_, rfl⟩, ?_, ?_, ?_, ?_⟩
        · simp [drawFrame, hsig]
        · intro j hj
          simp [resetCommandBuffer_not_mem_recreate] at hj
          exact hj
        · intro j ii2 hj
          simp [recordCommands_not_mem_recreate] at hj
          exact hj.1
        · intro hmem
          first | exact Or.inl rfl | exact Or.inr rfl
        · intro hor
          rcases hor with h | h <;> simp at h
      · refine ⟨{ s with fences := Function.update (Function.update s.fences s.currentFrame false) s.currentFrame true },
          [Action.waitFence s.currentFrame, Action.acquireImage s.currentFrame,
           Action.updateUniform s.currentFrame, Action.resetFence s.currentFrame,
           Action.resetCommandBuffer s.currentFrame,
           Action.recordCommands s.currentFrame ii,
           Action.queueSubmit s.currentFrame, Action.queuePresent],
          ?_, ⟨_, rfl⟩, ?_, ?_, ?_, ?_⟩
        · simp [drawFrame, hsig]
        · intro j hj
          simp at hj
          exact hj
        · intro j ii2 hj
          simp at hj
          exact hj.1
        · intro hmem
          first | exact Or.inl rfl | exact Or.inr rfl
        · intro hor
          rcases hor with h | h <;> simp at h
  }

/-- C2 witness: in the initial state every fence is signaled (slot 0 in
particular). -/
theorem drawFrame_fenceDiscipline_witness : initialFrameState.fences 0 = true :=
  (drawFrame_fenceDiscipline
    ⟨AcquireResult.outOfDate, 0, true, PresentResult.success⟩
    initialFrameState 1 1 rfl).1 0

/-! ## C3: swapchain recreation on resize, out-of-date or suboptimal -/

/-- C3: on a window-resize event, on an out-of-date acquire, and on an
out-of-date or suboptimal present, the performed trace waits for device
idle, destroys every swapchain framebuffer, every swapchain image view and
the swapchain, and then creates the new swapchain, image views and
framebuffers, in that order. -/
theorem swapchainRecreationTriggers (nFb nIv : Nat) (env : FrameEnv)
    (s s2 : FrameState) (tr : List Action)
    (h : drawFrame env s nFb nIv = some (s2, tr)) :
    recreationOrdered nFb nIv (handleEventTrace Event.windowResized nFb nIv) ∧
    (env.acquire = AcquireResult.outOfDate → recreationOrdered nFb nIv tr) ∧
    (env.acquire ≠ AcquireResult.outOfDate →
      env.acquire ≠ AcquireResult.failure → env.submitOk = true →
      (env.present = PresentResult.outOfDate ∨
        env.present = PresentResult.suboptimal) →
      recreationOrdered nFb nIv tr) := by
  have hbase := recreationOrdered_recreateSwapChainTrace nFb nIv
  refine ⟨?_, ?_, ?_⟩
  · rw [handleEventTrace]
    exact recreationOrdered_append_left nFb nIv [Action.deviceWaitIdle] _ hbase
  · intro hacq
    obtain ⟨acq, ii, sub, pres⟩ := env
    simp only at hacq
    subst hacq
    unfold drawFrame at h
    split at h
    · simp at h
    · simp only [Option.some.injEq, Prod.mk.injEq] at h
      obtain ⟨-, rfl⟩ := h
      exact recreationOrdered_append_left nFb nIv _ _ hbase
  · intro hacq hfail hsub hpres
    obtain ⟨acq, ii, sub, pres⟩ := env
    simp only at hacq hfail hsub hpres
    subst hsub
    unfold drawFrame at h
    split at h
    · simp at h
    · cases acq
      case outOfDate => exact absurd rfl hacq
      case failure => exact absurd rfl hfail
      all_goals {
        rcases hpres with hp | hp <;> subst hp <;>
          simp only [Bool.true_eq_false, reduceIte, Option.some.injEq,
            Prod.mk.injEq] at h <;>
          obtain ⟨-, rfl⟩ := h <;>
          exact recreationOrdered_append_left nFb nIv _ _ hbase
      }

/-- C3 witness: with a one-framebuffer, one-image-view swapchain and an
out-of-date acquire, the trace contains the wait-idle, the destruction of
the swapchain and the creations, in order. -/
theorem swapchainRecreationTriggers_witness :
    List.Sublist
      [Action.deviceWaitIdle, Action.destroySwapchain, Action.createSwapchain,
       Action.createImageViews, Action.createFramebuffers]
      ([Action.waitFence 0, Action.acquireImage 0] ++
        recreateSwapChainTrace 1 1) :=
  ((swapchainRecreationTriggers 1 1
      ⟨AcquireResult.outOfDate, 0, true, PresentResult.success⟩
      initialFrameState initialFrameState
      ([Action.waitFence 0, Action.acquireImage 0] ++
        recreateSwapChainTrace 1 1) rfl).2.1 rfl).1

end PlanetRenderer
